import Mathlib

/-!
Shallow embedding of the two source fragments of the repository:

* `ConceptTreeExplorer.tsx` (legend-pure-ide-light): the concept-tree
  explorer side-bar component — context menu, expand/collapse/open
  interaction handlers, drag-source payload typing, child derivation,
  collapse-all, and the error routing of the asynchronous open/expand
  callbacks.
* `TemporaryPureMergeOperationFunctionSpecification.java`
  (legend-pure-m3-core): a two-field data holder with a static factory.

Types imported by the component from `models/ConceptTree`
(`ConceptType`, the concept-attribute classes) are not part of the
supplied sources; those are modelled from the specification and carry a
`Modelled from the spec:` doc comment.
-/

/-- Modelled from the spec: the `ConceptType` tag carried by
`node.data.li_attr.pureType`.  The `models/ConceptTree` module defining the
`ConceptType` string enum is not among the supplied sources; the spec
describes the tag as "choosing among Package, Class, Association, Property,
Function, other".  The component compares the tag against these constants
and, in the drag-source, against the string literal "Class", so the tags are
modelled as distinct string constants named after the enum members used in
`ConceptTreeExplorer.tsx`. -/
def ConceptType.PACKAGE : String := "Package"

/-- Modelled from the spec: the `Class` concept type tag (see
`ConceptType.PACKAGE`). -/
def ConceptType.CLASS : String := "Class"

/-- Modelled from the spec: the `Association` concept type tag (see
`ConceptType.PACKAGE`). -/
def ConceptType.ASSOCIATION : String := "Association"

/-- Modelled from the spec: the `Property` concept type tag (see
`ConceptType.PACKAGE`). -/
def ConceptType.PROPERTY : String := "Property"

/-- Modelled from the spec: the `Function` concept type tag (see
`ConceptType.PACKAGE`). -/
def ConceptType.FUNCTION : String := "Function"

/-- Modelled from the spec: the polymorphic concept attribute record
(`node.data.li_attr`).  Its classes are defined in `models/ConceptTree`,
which is not among the supplied sources; per the spec it carries `pureType`
and, "for element/property variants, a source file reference with line and
column".  `element` models `ElementConceptAttribute`, `property` models
`PropertyConceptAttribute`, and `other` models every attribute variant
without source coordinates (for example the package attribute). -/
inductive ConceptAttribute where
  | element (pureType : String) (pureId : String) (file : String)
      (line : String) (column : String)
  | property (pureType : String) (pureId : String) (file : String)
      (line : String) (column : String)
  | other (pureType : String) (pureId : String)
  deriving DecidableEq, Repr

/-- The `pureType` field read from any attribute variant
(`node.data.li_attr.pureType` in the component). -/
def ConceptAttribute.pureType : ConceptAttribute → String
  | .element t _ _ _ _ => t
  | .property t _ _ _ _ => t
  | .other t _ => t

/-- The `pureId` field read from any attribute variant
(`node.data.li_attr.pureId` in the component). -/
def ConceptAttribute.pureId : ConceptAttribute → String
  | .element _ i _ _ _ => i
  | .property _ i _ _ _ => i
  | .other _ i => i

/-- Whether the attribute is an `ElementConceptAttribute` or a
`PropertyConceptAttribute` — exactly the `instanceof` test performed by
`viewConceptSource` in `ConceptTreeExplorer.tsx` (lines 284-287). -/
def ConceptAttribute.isSourceLocated : ConceptAttribute → Bool
  | .element _ _ _ _ _ => true
  | .property _ _ _ _ _ => true
  | .other _ _ => false

/-- A concept tree node as consumed by `ConceptTreeExplorer.tsx`.  The
TypeScript node nests the attribute under `node.data.li_attr`; here the
attribute is flattened into the `li_attr` field.  `childrenIds` is
`undefined` until the children have been fetched, modelled by `Option`;
`isOpen`, `isLoading`, `isSelected` are the transient UI flags. -/
structure ConceptTreeNode where
  id : String
  label : String
  li_attr : ConceptAttribute
  childrenIds : Option (List String)
  isOpen : Bool
  isLoading : Bool
  isSelected : Bool
  deriving DecidableEq, Repr

/-- The context-menu actions of `ConceptExplorerContextMenu`, one
constructor per click handler defined in `ConceptTreeExplorer.tsx` lines
60-76 (`rename`, `renamePackage`, `renameProperty`, `runTests`, `move`,
`viewSource`, `serviceJSON`). -/
inductive MenuAction where
  | rename
  | renamePackage
  | renameProperty
  | runTests
  | move
  | serviceJSON
  | viewSource
  deriving DecidableEq, Repr

/-- The action list rendered by `ConceptExplorerContextMenu`
(`ConceptTreeExplorer.tsx` lines 78-119), one conditional block per JSX
guard, in JSX order, keyed by `nodeType = node.data.li_attr.pureType`.
Each rendered entry is identified by the handler its `onClick` invokes. -/
def conceptExplorerContextMenu (nodeType : String) : List MenuAction :=
  (if nodeType = ConceptType.PACKAGE then [MenuAction.renamePackage] else []) ++
  (if nodeType = ConceptType.PROPERTY then [MenuAction.renameProperty] else []) ++
  (if nodeType ≠ ConceptType.PACKAGE ∧ nodeType ≠ ConceptType.PROPERTY then
    [MenuAction.rename] else []) ++
  (if nodeType = ConceptType.PACKAGE then [MenuAction.runTests] else []) ++
  (if nodeType ≠ ConceptType.PACKAGE ∧ nodeType ≠ ConceptType.PROPERTY then
    [MenuAction.move] else []) ++
  (if nodeType = ConceptType.FUNCTION then [MenuAction.serviceJSON] else []) ++
  (if nodeType ≠ ConceptType.PACKAGE then [MenuAction.viewSource] else [])

/-- Whether a rendered context-menu entry is one of the three rename
entries (each of which is rendered with the label "Rename"). -/
def MenuAction.isRenameEntry : MenuAction → Bool
  | .rename => true
  | .renamePackage => true
  | .renameProperty => true
  | _ => false

/-- The `CONCEPT_TREE_DND_TYPE.CLASS` member of the exported string enum
(`ConceptTreeExplorer.tsx` lines 124-127). -/
def CONCEPT_TREE_DND_TYPE.CLASS : String := "CLASS"

/-- The `CONCEPT_TREE_DND_TYPE.UNSUPPORTED` member of the exported string
enum (`ConceptTreeExplorer.tsx` lines 124-127). -/
def CONCEPT_TREE_DND_TYPE.UNSUPPORTED : String := "UNSUPPORTED"

/-- The drag payload type attached by the `useDrag` source
(`ConceptTreeExplorer.tsx` lines 177-186): `CONCEPT_TREE_DND_TYPE.CLASS`
when `node.data.li_attr.pureType === 'Class'`, otherwise
`CONCEPT_TREE_DND_TYPE.UNSUPPORTED`. -/
def conceptNodeDragType (pureType : String) : String :=
  if pureType = "Class" then CONCEPT_TREE_DND_TYPE.CLASS
  else CONCEPT_TREE_DND_TYPE.UNSUPPORTED

/-- Whether a node shows an expand/collapse indicator: its type is one of
Package, Class, Association (`ConceptTreeExplorer.tsx` lines 145-149). -/
def isExpandable (node : ConceptTreeNode) : Bool :=
  [ConceptType.PACKAGE, ConceptType.CLASS, ConceptType.ASSOCIATION].contains
    node.li_attr.pureType

/-- The store callbacks a node-container interaction can invoke:
`onNodeCompress`, `onNodeExpand`, `onNodeOpen`. -/
inductive NodeCallback where
  | compress
  | expand
  | nodeOpen
  deriving DecidableEq, Repr

/-- The `toggleExpansion` click handler (`ConceptTreeExplorer.tsx` lines
157-166): returns the callback it invokes, or `none` when it returns early
because `node.isLoading` is set.  The handler has no effect other than the
invoked callback. -/
def toggleExpansion (node : ConceptTreeNode) : Option NodeCallback :=
  if node.isLoading then none
  else if node.isOpen then some NodeCallback.compress
  else some NodeCallback.expand

/-- The `onDoubleClick` handler (`ConceptTreeExplorer.tsx` lines 167-176):
returns the callback it invokes, or `none` when it returns early because
`node.isLoading` is set.  The handler has no effect other than the invoked
callback. -/
def onDoubleClick (node : ConceptTreeNode) : Option NodeCallback :=
  if node.isLoading then none
  else if isExpandable node then toggleExpansion node
  else some NodeCallback.nodeOpen

/-- The tree data held by the concept-tree state: the node collection
(`treeData.nodes`, a `Map` from id to node, modelled as an association
list with `Map.get` as `List.lookup`) together with the root ids. -/
structure TreeData where
  rootIds : List String
  nodes : List (String × ConceptTreeNode)
  deriving DecidableEq, Repr

/-- The slice of the external concept-tree store state the component
mutates directly: the tree data and the current selection
(`treeState.setSelectedNode`). -/
structure ConceptTreeState where
  treeData : TreeData
  selectedNode : Option ConceptTreeNode
  deriving DecidableEq, Repr

/-- `treeState.setSelectedNode` as used by the component: replaces the
selection (with `none` for the `undefined` argument). -/
def setSelectedNode (s : ConceptTreeState) (node : Option ConceptTreeNode) :
    ConceptTreeState :=
  { s with selectedNode := node }

/-- The `collapseTree` handler (`ConceptTreeExplorer.tsx` lines 334-341):
iterates over every node of `treeData.nodes` setting `isOpen = false`, then
clears the selection via `setSelectedNode(undefined)`.  The trailing
`refreshTree()` only forces a re-render and touches no state modelled
here.  The handler is a plain synchronous function. -/
def collapseTree (s : ConceptTreeState) : ConceptTreeState :=
  setSelectedNode
    { s with
      treeData :=
        { s.treeData with
          nodes := s.treeData.nodes.map
            (fun p => (p.1, { p.2 with isOpen := false })) } }
    none

/-- Store effects a node handler may issue besides updating the node:
`refreshTree` (synchronous re-render trigger) and `fetchChildren` (the
asynchronous child fetch that, per the spec, the expand path issues for an
unloaded node; the code under consideration never issues it). -/
inductive StoreEffect where
  | refreshTree
  | fetchChildren (nodeId : String)
  deriving DecidableEq, Repr

/-- The `onNodeCompress` callback (`ConceptTreeExplorer.tsx` lines
269-272): sets `node.isOpen = false` and calls `treeState.refreshTree()`.
It is synchronous and issues no fetch. -/
def onNodeCompress (node : ConceptTreeNode) :
    ConceptTreeNode × List StoreEffect :=
  ({ node with isOpen := false }, [StoreEffect.refreshTree])

/-- The `getChildNodes` derivation (`ConceptTreeExplorer.tsx` lines
273-280): empty when `node.isLoading` or `node.childrenIds` is undefined,
otherwise `childrenIds` mapped through `treeData.nodes.get` with the
unresolved entries dropped by `.filter(isNonNullable)`. -/
def getChildNodes (treeData : TreeData) (node : ConceptTreeNode) :
    List ConceptTreeNode :=
  if node.isLoading then []
  else
    match node.childrenIds with
    | none => []
    | some ids =>
        (ids.map (fun childId => treeData.nodes.lookup childId)).filterMap
          (fun x => x)

/-- Where the settled result of an asynchronous node handler ends up:
either the flow completed, or its rejection was delivered to
`applicationStore.alertIllegalUnhandledError` by the attached `.catch`.
There is no constructor for an escaped rejection: the `.catch` is
unconditional. -/
inductive ErrorRoute (ε : Type) where
  | completed
  | alertIllegalUnhandledError (e : ε)
  deriving Repr

/-- The `onNodeOpen` callback (`ConceptTreeExplorer.tsx` lines 261-264):
`flowResult(treeState.openNode(node))` is external and asynchronous, so it
is modelled by its settled result; the attached
`.catch(applicationStore.alertIllegalUnhandledError)` routes any rejection
to the shared reporting function. -/
def onNodeOpen (ε : Type) (openNodeResult : Except ε Unit) : ErrorRoute ε :=
  match openNodeResult with
  | Except.ok _ => ErrorRoute.completed
  | Except.error e => ErrorRoute.alertIllegalUnhandledError e

/-- The `onNodeExpand` callback (`ConceptTreeExplorer.tsx` lines 265-268):
same shape as `onNodeOpen`, with `treeState.expandNode` as the external
asynchronous flow and the same `.catch` target. -/
def onNodeExpand (ε : Type) (expandNodeResult : Except ε Unit) :
    ErrorRoute ε :=
  match expandNodeResult with
  | Except.ok _ => ErrorRoute.completed
  | Except.error e => ErrorRoute.alertIllegalUnhandledError e

/-- The navigation request `viewConceptSource` sends to
`editorStore.directoryTreeState.revealPath`: the attribute's file together
with the line and column strings from which the `FileCoordinate` parses
its numbers (`ConceptTreeExplorer.tsx` lines 288-296). -/
inductive NavigationRequest where
  | revealPath (file : String) (line : String) (column : String)
  deriving DecidableEq, Repr

/-- The `viewConceptSource` handler (`ConceptTreeExplorer.tsx` lines
282-298): when `node.data.li_attr` is an `ElementConceptAttribute` or a
`PropertyConceptAttribute` it issues a `revealPath` request built from the
attribute's file, line, and column; for any other attribute it does
nothing. -/
def viewConceptSource (node : ConceptTreeNode) : Option NavigationRequest :=
  match node.li_attr with
  | ConceptAttribute.element _ _ file line column =>
      some (NavigationRequest.revealPath file line column)
  | ConceptAttribute.property _ _ file line column =>
      some (NavigationRequest.revealPath file line column)
  | ConceptAttribute.other _ _ => none

/-- The `TemporaryPureMergeOperationFunctionSpecification` class
(`TemporaryPureMergeOperationFunctionSpecification.java` lines 21-36): two
public, non-final fields `sourceInformation` and `validationExpression`.
`SourceInformation` and `CoreInstance` are external m4 types, taken as type
parameters. -/
structure TemporaryPureMergeOperationFunctionSpecification
    (SourceInformation : Type) (CoreInstance : Type) where
  sourceInformation : SourceInformation
  validationExpression : CoreInstance
  deriving DecidableEq, Repr

/-- The package-private constructor and the static `build` factory
(`TemporaryPureMergeOperationFunctionSpecification.java` lines 26-35):
both assign the two fields from the arguments; `build` just delegates to
the constructor. -/
def TemporaryPureMergeOperationFunctionSpecification.build
    {SourceInformation CoreInstance : Type}
    (sourceInformation : SourceInformation)
    (validationExpression : CoreInstance) :
    TemporaryPureMergeOperationFunctionSpecification SourceInformation
      CoreInstance :=
  { sourceInformation := sourceInformation,
    validationExpression := validationExpression }

/-- Assignment to the public non-final `sourceInformation` field
(`public SourceInformation sourceInformation;`, line 23 of the Java file):
Java permits any caller to reassign it after construction. -/
def TemporaryPureMergeOperationFunctionSpecification.setSourceInformation
    {SourceInformation CoreInstance : Type}
    (spec : TemporaryPureMergeOperationFunctionSpecification
      SourceInformation CoreInstance)
    (sourceInformation : SourceInformation) :
    TemporaryPureMergeOperationFunctionSpecification SourceInformation
      CoreInstance :=
  { spec with sourceInformation := sourceInformation }

/-- Assignment to the public non-final `validationExpression` field
(`public CoreInstance validationExpression;`, line 24 of the Java file):
Java permits any caller to reassign it after construction. -/
def TemporaryPureMergeOperationFunctionSpecification.setValidationExpression
    {SourceInformation CoreInstance : Type}
    (spec : TemporaryPureMergeOperationFunctionSpecification
      SourceInformation CoreInstance)
    (validationExpression : CoreInstance) :
    TemporaryPureMergeOperationFunctionSpecification SourceInformation
      CoreInstance :=
  { spec with validationExpression := validationExpression }

/-- Sample loaded, open Class node used to instantiate theorems with
hypotheses on concrete data. -/
def sampleClassNode : ConceptTreeNode :=
  { id := "root::A", label := "A",
    li_attr := ConceptAttribute.element "Class" "root::A" "/welcome.pure" "3" "5",
    childrenIds := some ["root::A::x", "root::A::missing"],
    isOpen := true, isLoading := false, isSelected := false }

/-- Sample child Property node present in the sample node collection. -/
def samplePropertyNode : ConceptTreeNode :=
  { id := "root::A::x", label := "x",
    li_attr := ConceptAttribute.property "Property" "root::A::x" "/welcome.pure" "4" "7",
    childrenIds := none,
    isOpen := false, isLoading := false, isSelected := false }

/-- Sample Package node whose attribute carries no source coordinates and
whose children are still loading. -/
def samplePackageNode : ConceptTreeNode :=
  { id := "root", label := "root",
    li_attr := ConceptAttribute.other "Package" "root",
    childrenIds := none,
    isOpen := false, isLoading := true, isSelected := true }

/-- Sample node collection: `sampleClassNode.childrenIds` names one
resolvable id and one stale id. -/
def sampleTreeData : TreeData :=
  { rootIds := ["root"],
    nodes := [("root", samplePackageNode), ("root::A", sampleClassNode),
              ("root::A::x", samplePropertyNode)] }

/-- Sample store state with a selection in place. -/
def sampleState : ConceptTreeState :=
  { treeData := sampleTreeData, selectedNode := some sampleClassNode }

/-- C1: the context-menu action set is determined exactly by the type tag:
a Package node gets exactly the package-rename and run-tests actions, a
Property node exactly the property-rename and view-source actions, a
Function node exactly the generic rename, move, service-JSON and
view-source actions, and every non-package node gets the view-source
action. -/
theorem conceptExplorerContextMenu_by_type :
    conceptExplorerContextMenu ConceptType.PACKAGE
      = [MenuAction.renamePackage, MenuAction.runTests] ∧
    conceptExplorerContextMenu ConceptType.PROPERTY
      = [MenuAction.renameProperty, MenuAction.viewSource] ∧
    conceptExplorerContextMenu ConceptType.FUNCTION
      = [MenuAction.rename, MenuAction.move, MenuAction.serviceJSON,
         MenuAction.viewSource] ∧
    ∀ nodeType : String, nodeType ≠ ConceptType.PACKAGE →
      MenuAction.viewSource ∈ conceptExplorerContextMenu nodeType := by
  refine ⟨by decide, by decide, by decide, ?_⟩
  intro t ht
  simp [conceptExplorerContextMenu, ht]

/-- Witness for C1: the universally quantified conjunct applied at the
type tag "Class". -/
theorem conceptExplorerContextMenu_by_type_witness :
    MenuAction.viewSource ∈ conceptExplorerContextMenu "Class" :=
  conceptExplorerContextMenu_by_type.2.2.2 "Class" (by decide)

/-- C2: while a node is loading, both the expand/collapse toggle and a
double click return early without invoking any compress, expand or open
callback; since these handlers have no other effect, the node is
unchanged. -/
theorem loadingNode_toggle_and_doubleClick_noop (node : ConceptTreeNode)
    (h : node.isLoading = true) :
    toggleExpansion node = none ∧ onDoubleClick node = none := by
  constructor <;> simp [toggleExpansion, onDoubleClick, h]

/-- Witness for C2 at the sample loading node. -/
theorem loadingNode_toggle_and_doubleClick_noop_witness :
    toggleExpansion samplePackageNode = none ∧
    onDoubleClick samplePackageNode = none :=
  loadingNode_toggle_and_doubleClick_noop samplePackageNode rfl

/-- Helper: the length of `filterMap id` over a list of options is the
number of `some` entries. -/
theorem length_filterMap_id_eq_countP (l : List (Option ConceptTreeNode)) :
    (l.filterMap (fun x => x)).length = l.countP (fun x => x.isSome) := by
  induction l with
  | nil => rfl
  | cons hd tl ih =>
      cases hd <;> simp [List.filterMap_cons, List.countP_cons, ih]

/-- C3: the derived visible-children list is empty when the node is
loading or has no `childrenIds`, and otherwise is exactly `childrenIds`
mapped through the node collection with unresolvable ids filtered out, so
its length is the count of resolvable ids. -/
theorem getChildNodes_spec (td : TreeData) (node : ConceptTreeNode) :
    (node.isLoading = true ∨ node.childrenIds = none →
      getChildNodes td node = []) ∧
    (∀ ids, node.isLoading = false → node.childrenIds = some ids →
      getChildNodes td node
          = ids.filterMap (fun c => td.nodes.lookup c) ∧
      (getChildNodes td node).length
          = ids.countP (fun c => (td.nodes.lookup c).isSome)) := by
  constructor
  · rintro (h | h) <;> simp [getChildNodes, h]
  · intro ids hl hc
    constructor
    · simp [getChildNodes, hl, hc, List.filterMap_map]
      rfl
    · simp only [getChildNodes, hl, hc, if_neg Bool.false_ne_true]
      rw [length_filterMap_id_eq_countP, List.countP_map]
      rfl

/-- Witness for C3 at the sample data: the loading node has no visible
children, and the Class node's visible children are its resolvable ids. -/
theorem getChildNodes_spec_witness :
    getChildNodes sampleTreeData samplePackageNode = [] ∧
    getChildNodes sampleTreeData sampleClassNode
      = List.filterMap (fun c => sampleTreeData.nodes.lookup c)
          ["root::A::x", "root::A::missing"] ∧
    (getChildNodes sampleTreeData sampleClassNode).length
      = List.countP (fun c => (sampleTreeData.nodes.lookup c).isSome)
          ["root::A::x", "root::A::missing"] :=
  ⟨(getChildNodes_spec sampleTreeData samplePackageNode).1 (Or.inr rfl),
   ((getChildNodes_spec sampleTreeData sampleClassNode).2
      ["root::A::x", "root::A::missing"] rfl rfl).1,
   ((getChildNodes_spec sampleTreeData sampleClassNode).2
      ["root::A::x", "root::A::missing"] rfl rfl).2⟩

/-- C4: collapse-all is a synchronous (pure) operation after which every
node in the collection has `isOpen = false`, whatever its prior state, and
the selection is cleared. -/
theorem collapseTree_spec (s : ConceptTreeState) :
    (∀ p ∈ (collapseTree s).treeData.nodes, p.2.isOpen = false) ∧
    (collapseTree s).selectedNode = none := by
  constructor
  · intro p hp
    simp only [collapseTree, setSelectedNode] at hp
    obtain ⟨a, _, rfl⟩ := List.mem_map.mp hp
    rfl
  · rfl

/-- Witness for C4 at the sample state: the previously open Class node is
closed after collapse-all and the selection is cleared. -/
theorem collapseTree_spec_witness :
    ({ sampleClassNode with isOpen := false } : ConceptTreeNode).isOpen
        = false ∧
    (collapseTree sampleState).selectedNode = none :=
  ⟨(collapseTree_spec sampleState).1
      ("root::A", { sampleClassNode with isOpen := false }) (by decide),
   (collapseTree_spec sampleState).2⟩

/-- C5: compress on a loaded, open node sets `isOpen = false`, leaves
`childrenIds` untouched, and issues only the synchronous re-render effect
— no fetch. -/
theorem onNodeCompress_spec (node : ConceptTreeNode)
    (_hOpen : node.isOpen = true) (_hLoaded : node.childrenIds.isSome = true) :
    (onNodeCompress node).1.isOpen = false ∧
    (onNodeCompress node).1.childrenIds = node.childrenIds ∧
    (onNodeCompress node).2 = [StoreEffect.refreshTree] :=
  ⟨rfl, rfl, rfl⟩

/-- Witness for C5 at the sample loaded, open Class node. -/
theorem onNodeCompress_spec_witness :
    (onNodeCompress sampleClassNode).1.isOpen = false ∧
    (onNodeCompress sampleClassNode).1.childrenIds
        = sampleClassNode.childrenIds ∧
    (onNodeCompress sampleClassNode).2 = [StoreEffect.refreshTree] :=
  onNodeCompress_spec sampleClassNode rfl rfl

/-- C6: the drag payload type is `CLASS` exactly when the node's type tag
is "Class", and `UNSUPPORTED` for every other tag. -/
theorem conceptNodeDragType_spec (pureType : String) :
    (conceptNodeDragType pureType = CONCEPT_TREE_DND_TYPE.CLASS ↔
      pureType = "Class") ∧
    (pureType ≠ "Class" →
      conceptNodeDragType pureType = CONCEPT_TREE_DND_TYPE.UNSUPPORTED) := by
  by_cases h : pureType = "Class"
  · subst h
    exact ⟨by simp [conceptNodeDragType], fun hne => absurd rfl hne⟩
  · constructor
    · simp only [conceptNodeDragType, if_neg h]
      constructor
      · intro hcontra
        exact absurd hcontra (by decide)
      · intro hc
        exact absurd hc h
    · intro _
      simp [conceptNodeDragType, h]

/-- Witness for C6 at the type tag "Package". -/
theorem conceptNodeDragType_spec_witness :
    conceptNodeDragType "Package" = CONCEPT_TREE_DND_TYPE.UNSUPPORTED :=
  (conceptNodeDragType_spec "Package").2 (by decide)

/-- C7: a rejection of the asynchronous open or expand flow is delivered
to `alertIllegalUnhandledError`, and both callbacks route their results
identically — one shared reporting path, no escaping rejection. -/
theorem asyncFailure_routed_to_alert (ε : Type) (e : ε) :
    onNodeOpen ε (Except.error e) = ErrorRoute.alertIllegalUnhandledError e ∧
    onNodeExpand ε (Except.error e)
        = ErrorRoute.alertIllegalUnhandledError e ∧
    ∀ r : Except ε Unit, onNodeOpen ε r = onNodeExpand ε r :=
  ⟨rfl, rfl, fun r => by cases r <;> rfl⟩

/-- C8 counterexample: the two fields of
`TemporaryPureMergeOperationFunctionSpecification` are public and
non-final, so a caller can reassign them after `build` completes — here
`sourceInformation` changes from 0 to 1 and `validationExpression` from 0
to 2 on the constructed object. -/
theorem mergeOperationSpecification_mutable_counterexample :
    ((TemporaryPureMergeOperationFunctionSpecification.build
        (0 : Nat) (0 : Nat)).setSourceInformation 1).sourceInformation
        = 1 ∧
    (TemporaryPureMergeOperationFunctionSpecification.build
        (0 : Nat) (0 : Nat)).sourceInformation = 0 ∧
    ((TemporaryPureMergeOperationFunctionSpecification.build
        (0 : Nat) (0 : Nat)).setValidationExpression 2).validationExpression
        = 2 ∧
    (TemporaryPureMergeOperationFunctionSpecification.build
        (0 : Nat) (0 : Nat)).validationExpression = 0 :=
  ⟨rfl, rfl, rfl, rfl⟩

/-- C8 amended: construction stores the two arguments in the two fields
and the class offers no method besides its constructor and the static
`build` factory, but the fields are public and non-final, so each can be
reassigned independently after construction (the other field keeping its
value); the object is not immutable. -/
theorem mergeOperationSpecification_amended (SI CI : Type)
    (si si2 : SI) (ve ve2 : CI) :
    (TemporaryPureMergeOperationFunctionSpecification.build si ve).sourceInformation
        = si ∧
    (TemporaryPureMergeOperationFunctionSpecification.build si ve).validationExpression
        = ve ∧
    ((TemporaryPureMergeOperationFunctionSpecification.build si
        ve).setSourceInformation si2).sourceInformation = si2 ∧
    ((TemporaryPureMergeOperationFunctionSpecification.build si
        ve).setSourceInformation si2).validationExpression = ve ∧
    ((TemporaryPureMergeOperationFunctionSpecification.build si
        ve).setValidationExpression ve2).validationExpression = ve2 ∧
    ((TemporaryPureMergeOperationFunctionSpecification.build si
        ve).setValidationExpression ve2).sourceInformation = si :=
  ⟨rfl, rfl, rfl, rfl, rfl, rfl⟩

/-- C9: when a node's attribute is neither an element concept attribute
nor a property concept attribute, `viewConceptSource` issues no navigation
request at all. -/
theorem viewConceptSource_noop_on_unlocated (node : ConceptTreeNode)
    (h : node.li_attr.isSourceLocated = false) :
    viewConceptSource node = none := by
  cases ha : node.li_attr with
  | element a b c d e =>
      rw [ha] at h
      exact absurd h (by simp [ConceptAttribute.isSourceLocated])
  | property a b c d e =>
      rw [ha] at h
      exact absurd h (by simp [ConceptAttribute.isSourceLocated])
  | other a b =>
      simp [viewConceptSource, ha]

/-- Witness for C9 at the sample Package node. -/
theorem viewConceptSource_noop_on_unlocated_witness :
    viewConceptSource samplePackageNode = none :=
  viewConceptSource_noop_on_unlocated samplePackageNode rfl

/-- C10: for every type tag, the three rename-rendering guards are
mutually exclusive and jointly exhaustive, so the context menu contains
exactly one rename entry. -/
theorem contextMenu_exactly_one_rename_entry (nodeType : String) :
    ((conceptExplorerContextMenu nodeType).filter
        MenuAction.isRenameEntry).length = 1 := by
  by_cases h1 : nodeType = ConceptType.PACKAGE
  · subst h1; decide
  · by_cases h2 : nodeType = ConceptType.PROPERTY
    · subst h2; decide
    · by_cases h3 : nodeType = ConceptType.FUNCTION
      · subst h3; decide
      · simp [conceptExplorerContextMenu, h1, h2, h3,
          MenuAction.isRenameEntry]
